import Mathlib

/-!
Shallow embedding of c1moore/go-http-server-template.

Source files embedded here:
- internal/config/config.go (src/unnamed/part_001): Config, ServerConfig,
  LoadConfig, Config.LogLevel, Config.IsProd, together with the relevant
  behavior of the external libraries it calls (caarlos0/env v11 parsing,
  go-playground/validator tags, joho/godotenv, zerolog.ParseLevel).
- internal/health (src/unnamed/part_000): InitRoutes, handleReadinessProbe,
  handleLivenessProbe. getHealth lives in internal/health/service.go, which
  is not among the provided sources; it is modelled from the spec (see below).
- cmd/server.go: the gin middleware chain registered in main (gin.Recovery,
  then gin.WrapH(hlog.NewHandler(logger)(nil))), the shutdown sequence after
  a signal, and the signal registration.

Machine integers are modelled as Int/Nat; 64-bit overflow of strconv parsing
is not modelled (it is irrelevant to the claims, which concern ports within
[1, 65535] and small level numbers).
-/

/-! ## Environment maps and Go-style integer parsing -/

/-- A process environment: an association list from variable names to values.
Lookup takes the first binding, mirroring a map. -/
abbrev EnvMap := List (String × String)

/-- Fold a digit list into a number, mirroring base-10 accumulation done by
Go strconv.ParseInt. -/
def digitsToNat (ds : List Char) : Nat :=
  ds.foldl (fun acc c => acc * 10 + (c.toNat - 48)) 0

/-- Parse an unsigned digit run with the given sign; empty or non-digit
input fails. -/
def parseDigits (ds : List Char) (sign : Int) : Option Int :=
  if ds ≠ [] ∧ ds.all Char.isDigit then some (sign * (digitsToNat ds : Int))
  else none

/-- Go strconv base-10 integer parsing as used by caarlos0/env for an `int`
field: optional leading sign followed by one or more digits; anything else
is a parse error (64-bit range overflow not modelled). -/
def parseGoInt (s : String) : Option Int :=
  match s.data with
  | [] => none
  | '-' :: rest => parseDigits rest (-1)
  | '+' :: rest => parseDigits rest 1
  | ds => parseDigits ds 1

/-! ## Config (internal/config/config.go) -/

/-- internal/config ServerConfig: Address (env ADDRESS), Port (env PORT,
validate required,gt=0,lt=65536), LogLevel (env LOG_LEVEL, default info,
validate required,oneof=debug info warn error), Env (env ENV, validate
required,oneof=local dev staging prod). All under prefix SERVER_. -/
structure ServerConfig where
  Address : String
  Port : Int
  LogLevel : String
  Env : String

/-- internal/config Config: the single nested Server section. -/
structure Config where
  Server : ServerConfig

/-- caarlos0/env v11 behavior for a string field: if the variable is unset
the envDefault (or the zero value "") is used; if it is set — even to the
empty string — the set value is kept (a set-but-empty variable leaves the
zero value "", which coincides with returning the empty value itself). -/
def envStr (e : EnvMap) (key : String) (dflt : String) : String :=
  match List.lookup key e with
  | none => dflt
  | some v => v

/-- caarlos0/env v11 behavior for the int field Port: unset or set-but-empty
leaves the zero value 0; otherwise the value must parse as an integer or
env.Parse reports an error. -/
def envInt (e : EnvMap) (key : String) : Except String Int :=
  match List.lookup key e with
  | none => Except.ok 0
  | some v =>
    if v = "" then Except.ok 0
    else
      match parseGoInt v with
      | some n => Except.ok n
      | none => Except.error ("env: parse error on field Port: strconv.ParseInt: parsing " ++ v)

/-- env.Parse(config) from LoadConfig: fill every field of Config from the
environment (prefix SERVER_), failing only if an int field fails to parse. -/
def envParse (e : EnvMap) : Except String Config :=
  match envInt e "SERVER_PORT" with
  | Except.error msg => Except.error msg
  | Except.ok port =>
    Except.ok
      { Server :=
        { Address := envStr e "SERVER_ADDRESS" ""
          Port := port
          LogLevel := envStr e "SERVER_LOG_LEVEL" "info"
          Env := envStr e "SERVER_ENV" "" } }

/-- The closed enumeration of the oneof tag on LogLevel. -/
def logLevelEnum : List String := ["debug", "info", "warn", "error"]

/-- The closed enumeration of the oneof tag on Env. -/
def envEnum : List String := ["local", "dev", "staging", "prod"]

/-- go-playground/validator on Config: Port must be non-zero (required on an
int), greater than 0 (gt=0) and less than 65536 (lt=65536); LogLevel must be
non-empty (required) and in its oneof enumeration; Env likewise. The real
validator collects every failing tag; returning the first failure is an
equivalent embedding for the error/no-error distinction. -/
def validateConfig (c : Config) : Except String Unit :=
  if c.Server.Port = 0 then
    Except.error "Field validation for Port failed on the required tag"
  else if c.Server.Port ≤ 0 then
    Except.error "Field validation for Port failed on the gt tag"
  else if 65536 ≤ c.Server.Port then
    Except.error "Field validation for Port failed on the lt tag"
  else if c.Server.LogLevel = "" then
    Except.error "Field validation for LogLevel failed on the required tag"
  else if c.Server.LogLevel ∉ logLevelEnum then
    Except.error "Field validation for LogLevel failed on the oneof tag"
  else if c.Server.Env = "" then
    Except.error "Field validation for Env failed on the required tag"
  else if c.Server.Env ∉ envEnum then
    Except.error "Field validation for Env failed on the oneof tag"
  else Except.ok ()

/-- The error/ok outcome of LoadConfig: env.Parse, then validator.Struct,
returning the parsed config when both succeed. The godotenv step cannot
influence this outcome (its failure is only logged). -/
def loadResult (e : EnvMap) : Except String Config :=
  match envParse e with
  | Except.error msg => Except.error msg
  | Except.ok c =>
    match validateConfig c with
    | Except.error msg => Except.error msg
    | Except.ok _ => Except.ok c

/-- Structured log entries emitted by the program, by level. -/
inductive LogEntry where
  | info (msg : String)
  | warn (msg : String)
  | error (msg : String)
  | fatal (msg : String)
deriving DecidableEq

/-- LoadConfig from internal/config/config.go. `dotenvEr` is the outcome of
godotenv.Load (some message when no .env file could be loaded): on failure a
warning is logged and loading continues from the process environment `e`.
Returns the warnings emitted and the parse/validate outcome. -/
def LoadConfig (dotenvEr : Option String) (e : EnvMap) :
    List LogEntry × Except String Config :=
  (match dotenvEr with
   | some m => [LogEntry.warn ("failed to load environment variables: " ++ m)]
   | none => [],
   loadResult e)

/-- zerolog.ParseLevel: exact match on the lowercase level names (trace -1,
debug 0, info 1, warn 2, error 3, fatal 4, panic 5, the empty string 6 for
NoLevel, disabled 7), then a numeric fallback accepting -1..7; anything else
is an Unknown Level String error. (The loader validation only ever lets the
four lowercase names debug/info/warn/error through.) -/
def zerologParseLevel (s : String) : Except String Int :=
  if s = "trace" then Except.ok (-1)
  else if s = "debug" then Except.ok 0
  else if s = "info" then Except.ok 1
  else if s = "warn" then Except.ok 2
  else if s = "error" then Except.ok 3
  else if s = "fatal" then Except.ok 4
  else if s = "panic" then Except.ok 5
  else if s = "disabled" then Except.ok 7
  else if s = "" then Except.ok 6
  else
    match parseGoInt s with
    | some i => if -1 ≤ i ∧ i ≤ 7 then Except.ok i
                else Except.error ("Unknown Level String: " ++ s)
    | none => Except.error ("Unknown Level String: " ++ s)

/-- Config.LogLevel() method: parse the configured string with
zerolog.ParseLevel and fall back to InfoLevel (1) on a parse error. -/
def Config.LogLevel (c : Config) : Int :=
  match zerologParseLevel c.Server.LogLevel with
  | Except.error _ => 1
  | Except.ok l => l

/-- Config.IsProd() method: the environment tag equals "prod". -/
def Config.IsProd (c : Config) : Bool :=
  c.Server.Env == "prod"

/-- main: gin.SetMode(gin.ReleaseMode) runs iff config.IsProd(); otherwise
gin stays in its default debug mode. -/
def ginModeFor (c : Config) : String :=
  if c.IsProd then "release" else "debug"

/-! ## HTTP surface (internal/health and the middleware chain of main) -/

/-- A JSON value, as far as the response bodies of this server need. -/
inductive JsonVal where
  | str (s : String)
  | obj (fields : List (String × JsonVal))

/-- An HTTP response: status code and optional body (none = empty body). -/
structure Response where
  status : Nat
  body : Option JsonVal

/-- An HTTP request as gin routes it: method and path. -/
structure Request where
  method : String
  path : String

/-- The outcome of running a handler: a normal response, or a Go panic
carrying its message. -/
inductive HandlerOutcome where
  | ok (r : Response)
  | panicked (msg : String)

/-- internal/health HealthResult: currently an empty struct (modelled from
the spec and the README sample service.go, which show it with no fields). -/
structure HealthResult where

/-- gin JSON encoding of a HealthResult: the empty struct marshals to the
empty JSON object. -/
def encodeHealthResult (_ : HealthResult) : JsonVal := JsonVal.obj []

/-- Modelled from the spec: getHealth lives in internal/health/service.go,
which is not among the provided sources (only its caller
handleReadinessProbe is). The spec says the internal self-check "is a stub
that always succeeds", and the README shows it returning (HealthResult, nil). -/
def getHealth : Except String HealthResult := Except.ok {}

/-- handleReadinessProbe from internal/health: on error from getHealth,
c.JSON(500, gin.H with the error message); otherwise c.JSON(200, res). -/
def handleReadinessProbe (healthOutcome : Except String HealthResult) : Response :=
  match healthOutcome with
  | Except.error e =>
    { status := 500, body := some (JsonVal.obj [("error", JsonVal.str e)]) }
  | Except.ok res =>
    { status := 200, body := some (encodeHealthResult res) }

/-- handleLivenessProbe from internal/health: c.Status(200), no body. -/
def handleLivenessProbe : Response :=
  { status := 200, body := none }

/-- InitRoutes on the /health group plus gin dispatch: exact method/path
match to the two probes; anything else gets the gin 404 default. -/
def routeHealth (req : Request) : HandlerOutcome :=
  if req.method = "GET" ∧ req.path = "/health/ready" then
    HandlerOutcome.ok (handleReadinessProbe getHealth)
  else if req.method = "GET" ∧ req.path = "/health/live" then
    HandlerOutcome.ok handleLivenessProbe
  else
    HandlerOutcome.ok { status := 404, body := some (JsonVal.str "404 page not found") }

/-- hlog.NewHandler(logger) applied to a next http.Handler: it stores the
logger in the request context and then unconditionally calls
next.ServeHTTP. In Go, invoking a method on a nil handler interface is a
runtime panic; cmd/server.go line 39 passes nil as next. -/
def hlogHandler (next : Option (Request → HandlerOutcome)) (req : Request) :
    HandlerOutcome :=
  match next with
  | none => HandlerOutcome.panicked "runtime error: invalid memory address or nil pointer dereference"
  | some h => h req

/-- gin.WrapH(hlogHandler next) used as middleware, followed by the matched
route handler: a panic inside the wrapped handler propagates out of the
middleware; if it returns normally, gin continues the chain with the route
handler. -/
def middlewareChain (next : Option (Request → HandlerOutcome))
    (route : Request → HandlerOutcome) (req : Request) : HandlerOutcome :=
  match hlogHandler next req with
  | HandlerOutcome.panicked m => HandlerOutcome.panicked m
  | HandlerOutcome.ok _ => route req

/-- gin.Recovery(), the outermost registered middleware: run the rest of the
chain; if it panics, recover, log the panic, and abort with a bare 500
(empty body); otherwise pass the response through. -/
def ginRecovery (inner : Request → HandlerOutcome) (req : Request) :
    HandlerOutcome × List LogEntry :=
  match inner req with
  | HandlerOutcome.ok r => (HandlerOutcome.ok r, [])
  | HandlerOutcome.panicked m =>
    (HandlerOutcome.ok { status := 500, body := none },
     [LogEntry.error ("[Recovery] panic recovered: " ++ m)])

/-- The full request pipeline registered in cmd/server.go: gin.Recovery
outermost, then gin.WrapH(hlog.NewHandler(logger)(nil)) — note the nil next
handler — then the /health routes. -/
def serve (req : Request) : HandlerOutcome × List LogEntry :=
  ginRecovery (middlewareChain none routeHealth) req

/-! ## Lifecycle (cmd/server.go main) -/

/-- The outcome of srv.Shutdown(ctx) with the 30-second context: all
connections drained in time (returns nil), the context deadline expired
with the given number of requests still in flight (returns ctx.Err(), i.e.
context deadline exceeded), or closing the listeners failed. -/
inductive ShutdownOutcome where
  | drained
  | deadlineExceeded (inflight : Nat)
  | closeFailed (msg : String)

/-- The error value srv.Shutdown returns for each outcome. -/
def shutdownErr : ShutdownOutcome → Option String
  | ShutdownOutcome.drained => none
  | ShutdownOutcome.deadlineExceeded _ => some "context deadline exceeded"
  | ShutdownOutcome.closeFailed m => some m

/-- The tail of main after a signal arrives (cmd/server.go lines 62-70):
log "shutting down server", call srv.Shutdown with a 30-second deadline;
on any non-nil error logger.Fatal logs it and the process exits with status
1; on nil error main returns and the process exits with status 0. Returns
(exit status, log entries). -/
def mainShutdown (o : ShutdownOutcome) : Nat × List LogEntry :=
  match shutdownErr o with
  | none => (0, [LogEntry.info "shutting down server"])
  | some m =>
    (1, [LogEntry.info "shutting down server",
         LogEntry.fatal ("failed to shutdown server: " ++ m)])

/-- The OS signals relevant to the model (a strict superset of the two the
program subscribes to, so that "only these" is expressible). -/
inductive OsSignal where
  | sigint
  | sigterm
  | sighup
  | sigquit
  | sigusr1
deriving DecidableEq

/-- signal.Notify(quit, syscall.SIGINT, syscall.SIGTERM): the signals
forwarded to the quit channel. -/
def notifiedSignals : List OsSignal := [OsSignal.sigint, OsSignal.sigterm]

/-- A signal wakes the blocked receive on quit — and so starts the shutdown
sequence — iff it is among the notified signals. -/
def triggersShutdown (s : OsSignal) : Bool :=
  notifiedSignals.contains s

/-- The goroutine of cmd/server.go lines 48-56: after ListenAndServe
returns, logger.Fatal (process exit status 1) runs iff the returned error
is non-nil and differs from http.ErrServerClosed; on ErrServerClosed it
logs "server stopped" at info level instead. -/
def serveGoroutineFatal (err : Option String) : Bool :=
  match err with
  | none => false
  | some m => m != "http: Server closed"

/-! ## Helper lemmas -/

theorem parseGoInt_empty : parseGoInt "" = none := rfl

theorem mem_logLevelEnum_ne_empty {s : String} (h : s ∈ logLevelEnum) : s ≠ "" := by
  simp only [logLevelEnum, List.mem_cons, List.not_mem_nil, or_false] at h
  rcases h with rfl | rfl | rfl | rfl <;> decide

theorem mem_envEnum_ne_empty {s : String} (h : s ∈ envEnum) : s ≠ "" := by
  simp only [envEnum, List.mem_cons, List.not_mem_nil, or_false] at h
  rcases h with rfl | rfl | rfl | rfl <;> decide

theorem validateConfig_ok_iff (c : Config) :
    validateConfig c = Except.ok () ↔
      0 < c.Server.Port ∧ c.Server.Port < 65536 ∧
      c.Server.LogLevel ∈ logLevelEnum ∧ c.Server.Env ∈ envEnum := by
  unfold validateConfig
  constructor
  · intro h
    split_ifs at h with h1 h2 h3 h4 h5 h6 h7
    exact ⟨by omega, by omega, h5, h7⟩
  · rintro ⟨hlo, hhi, hll, henv⟩
    have h1 : ¬ c.Server.Port = 0 := by omega
    have h2 : ¬ c.Server.Port ≤ 0 := by omega
    have h3 : ¬ 65536 ≤ c.Server.Port := by omega
    have h4 : ¬ c.Server.LogLevel = "" := mem_logLevelEnum_ne_empty hll
    have h6 : ¬ c.Server.Env = "" := mem_envEnum_ne_empty henv
    simp [h1, h2, h3, h4, h6, hll, henv]

theorem envParse_ok_fields (e : EnvMap) (c : Config) (h : envParse e = Except.ok c) :
    envInt e "SERVER_PORT" = Except.ok c.Server.Port ∧
    c.Server.LogLevel = envStr e "SERVER_LOG_LEVEL" "info" ∧
    c.Server.Env = envStr e "SERVER_ENV" "" := by
  cases hp : envInt e "SERVER_PORT" with
  | error msg => simp [envParse, hp] at h
  | ok port =>
    have h2 :
        ({ Server :=
          { Address := envStr e "SERVER_ADDRESS" ""
            Port := port
            LogLevel := envStr e "SERVER_LOG_LEVEL" "info"
            Env := envStr e "SERVER_ENV" "" } } : Config) = c := by
      have h3 : envParse e =
          Except.ok ({ Server :=
            { Address := envStr e "SERVER_ADDRESS" ""
              Port := port
              LogLevel := envStr e "SERVER_LOG_LEVEL" "info"
              Env := envStr e "SERVER_ENV" "" } } : Config) := by
        simp [envParse, hp]
      rw [h3] at h
      injection h
    subst h2
    exact ⟨rfl, rfl, rfl⟩

theorem loadResult_ok (e : EnvMap) (c : Config) (h : loadResult e = Except.ok c) :
    envParse e = Except.ok c ∧ validateConfig c = Except.ok () := by
  cases hp : envParse e with
  | error msg => simp [loadResult, hp] at h
  | ok c0 =>
    cases hv : validateConfig c0 with
    | error msg => simp [loadResult, hp, hv] at h
    | ok u =>
      have h2 : c0 = c := by
        have h3 : loadResult e = Except.ok c0 := by
          simp [loadResult, hp, hv]
        rw [h3] at h
        injection h
      subst h2
      cases u
      exact ⟨rfl, hv⟩

/-! ## Claim theorems -/

/-- C1 counterexample: when the 30-second drain deadline expires with a
request still in flight, srv.Shutdown returns the context deadline error
and main takes the logger.Fatal path, so the exit status is not 0 — the
claim that the process still exits cleanly fails on the code. -/
theorem shutdownTimeout_exit_not_zero :
    (mainShutdown (ShutdownOutcome.deadlineExceeded 1)).1 ≠ 0 := by decide

/-- C1 (amended): if the 30-second drain deadline expires with requests
still in flight, srv.Shutdown returns the deadline error, main logs
"failed to shutdown server" at fatal level, and the process exits with the
non-zero status 1 (connections are torn down by process exit). -/
theorem shutdownTimeout_fatal_path (n : Nat) (_h : 0 < n) :
    (mainShutdown (ShutdownOutcome.deadlineExceeded n)).1 = 1 ∧
    (mainShutdown (ShutdownOutcome.deadlineExceeded n)).2 =
      [LogEntry.info "shutting down server",
       LogEntry.fatal "failed to shutdown server: context deadline exceeded"] :=
  ⟨rfl, rfl⟩

/-- C1 witness: the amended claim at one in-flight request. -/
theorem shutdownTimeout_fatal_path_witness :
    (mainShutdown (ShutdownOutcome.deadlineExceeded 1)).1 = 1 :=
  (shutdownTimeout_fatal_path 1 (by decide)).1

/-- C2: evaluating the registered pipeline of cmd/server.go on GET
/health/live. Because line 39 passes nil as the next handler of
hlog.NewHandler, the logging middleware panics on every request and
gin.Recovery answers 500 with an empty body — not the 200 the claim (and
the README) state. This theorem records the code behavior at the failing
input. -/
theorem live_request_returns_500_empty :
    serve { method := "GET", path := "/health/live" } =
      (HandlerOutcome.ok { status := 500, body := none },
       [LogEntry.error "[Recovery] panic recovered: runtime error: invalid memory address or nil pointer dereference"]) :=
  rfl

/-- C3: evaluating the pipeline on GET /health/ready gives the same 500
with empty body (the nil-next-handler panic fires before routing), while
the handler handleReadinessProbe itself does implement the claimed
branching: 200 with the empty JSON object when getHealth succeeds, 500
with an error object carrying the message when it fails, and a response is
produced in both branches so no error propagates further. -/
theorem ready_request_and_handler :
    serve { method := "GET", path := "/health/ready" } =
      (HandlerOutcome.ok { status := 500, body := none },
       [LogEntry.error "[Recovery] panic recovered: runtime error: invalid memory address or nil pointer dereference"]) ∧
    handleReadinessProbe getHealth =
      { status := 200, body := some (JsonVal.obj []) } ∧
    (∀ msg : String, handleReadinessProbe (Except.error msg) =
      { status := 500, body := some (JsonVal.obj [("error", JsonVal.str msg)]) }) :=
  ⟨rfl, rfl, fun _ => rfl⟩

/-- C4: for every environment in which SERVER_PORT parses as an integer in
[1, 65535], SERVER_LOG_LEVEL is absent or one of debug/info/warn/error,
and SERVER_ENV is one of local/dev/staging/prod, LoadConfig returns a
populated Config and no error, whatever the godotenv outcome. -/
theorem loadConfig_valid_env_ok (e : EnvMap) (d : Option String) (ps : String)
    (n : Int) (hport : List.lookup "SERVER_PORT" e = some ps)
    (hparse : parseGoInt ps = some n) (hlo : 1 ≤ n) (hhi : n ≤ 65535)
    (hll : List.lookup "SERVER_LOG_LEVEL" e = none ∨
      (∃ l, List.lookup "SERVER_LOG_LEVEL" e = some l ∧ l ∈ logLevelEnum))
    (henv : ∃ v, List.lookup "SERVER_ENV" e = some v ∧ v ∈ envEnum) :
    ∃ c : Config, (LoadConfig d e).2 = Except.ok c ∧ c.Server.Port = n ∧
      c.Server.LogLevel ∈ logLevelEnum ∧ c.Server.Env ∈ envEnum := by
  obtain ⟨v, hv, hvmem⟩ := henv
  have hpsne : ps ≠ "" := by
    intro hcon
    rw [hcon, parseGoInt_empty] at hparse
    exact Option.noConfusion hparse
  have hint : envInt e "SERVER_PORT" = Except.ok n := by
    simp [envInt, hport, hpsne, hparse]
  have hllmem : envStr e "SERVER_LOG_LEVEL" "info" ∈ logLevelEnum := by
    rcases hll with hnone | ⟨l, hsome, hmem⟩
    · simp [envStr, hnone, logLevelEnum]
    · simpa [envStr, hsome] using hmem
  have hevmem : envStr e "SERVER_ENV" "" ∈ envEnum := by
    simpa [envStr, hv] using hvmem
  have h1 : (0 : Int) < n := by omega
  have h2 : n < 65536 := by omega
  have hparseok : envParse e = Except.ok
      ({ Server :=
        { Address := envStr e "SERVER_ADDRESS" ""
          Port := n
          LogLevel := envStr e "SERVER_LOG_LEVEL" "info"
          Env := envStr e "SERVER_ENV" "" } } : Config) := by
    simp [envParse, hint]
  have hval : validateConfig
      ({ Server :=
        { Address := envStr e "SERVER_ADDRESS" ""
          Port := n
          LogLevel := envStr e "SERVER_LOG_LEVEL" "info"
          Env := envStr e "SERVER_ENV" "" } } : Config) = Except.ok () :=
    (validateConfig_ok_iff _).mpr ⟨h1, h2, hllmem, hevmem⟩
  refine ⟨{ Server :=
    { Address := envStr e "SERVER_ADDRESS" ""
      Port := n
      LogLevel := envStr e "SERVER_LOG_LEVEL" "info"
      Env := envStr e "SERVER_ENV" "" } }, ?_, rfl, hllmem, hevmem⟩
  show loadResult e = Except.ok _
  simp [loadResult, hparseok, hval]

/-- C4 witness: a concrete valid environment. -/
theorem loadConfig_valid_env_ok_witness :
    ∃ c : Config,
      (LoadConfig none [("SERVER_PORT", "8080"), ("SERVER_ENV", "local")]).2 =
        Except.ok c ∧ c.Server.Port = 8080 ∧
      c.Server.LogLevel ∈ logLevelEnum ∧ c.Server.Env ∈ envEnum :=
  loadConfig_valid_env_ok [("SERVER_PORT", "8080"), ("SERVER_ENV", "local")]
    none "8080" 8080 rfl rfl (by decide) (by decide) (Or.inl rfl)
    ⟨"local", rfl, by decide⟩

/-- C5: for every environment missing SERVER_PORT or SERVER_ENV, or whose
SERVER_PORT parses to an integer outside [1, 65535], or whose
SERVER_LOG_LEVEL or SERVER_ENV value is outside its closed enumeration,
LoadConfig returns an error (and hence no configuration value). -/
theorem loadConfig_invalid_env_error (e : EnvMap) (d : Option String)
    (hbad : List.lookup "SERVER_PORT" e = none ∨
      List.lookup "SERVER_ENV" e = none ∨
      (∃ ps n, List.lookup "SERVER_PORT" e = some ps ∧ parseGoInt ps = some n ∧
        (n < 1 ∨ 65535 < n)) ∨
      (∃ l, List.lookup "SERVER_LOG_LEVEL" e = some l ∧ l ∉ logLevelEnum) ∨
      (∃ v, List.lookup "SERVER_ENV" e = some v ∧ v ∉ envEnum)) :
    ∃ msg, (LoadConfig d e).2 = Except.error msg := by
  cases hres : loadResult e with
  | error msg => exact ⟨msg, hres⟩
  | ok c =>
    exfalso
    obtain ⟨hparse, hval⟩ := loadResult_ok e c hres
    obtain ⟨hint, hll, henv⟩ := envParse_ok_fields e c hparse
    obtain ⟨hlo, hhi, hllmem, henvmem⟩ := (validateConfig_ok_iff c).mp hval
    rcases hbad with hmiss | hmiss | ⟨ps, n, hps, hpn, hrange⟩ | ⟨l, hl, hlnot⟩ |
      ⟨v, hv2, hvnot⟩
    · simp [envInt, hmiss] at hint
      omega
    · simp [envStr, hmiss] at henv
      exact mem_envEnum_ne_empty henvmem henv
    · have hpsne : ps ≠ "" := by
        intro hcon
        rw [hcon, parseGoInt_empty] at hpn
        exact Option.noConfusion hpn
      simp [envInt, hps, hpsne, hpn] at hint
      omega
    · simp [envStr, hl] at hll
      exact hlnot (hll ▸ hllmem)
    · simp [envStr, hv2] at henv
      exact hvnot (henv ▸ henvmem)

/-- C5 witness: the port variable missing. -/
theorem loadConfig_invalid_env_error_witness :
    ∃ msg, (LoadConfig none [("SERVER_ENV", "local")]).2 = Except.error msg :=
  loadConfig_invalid_env_error [("SERVER_ENV", "local")] none (Or.inl rfl)

/-- C6: any panic raised below gin.Recovery while handling a request is
caught, converted to a 500 response with the panic logged, and the chain
always yields a normal response — a handler fault never escapes, so it
cannot crash the serving process. -/
theorem panic_caught_500_logged (h : Request → HandlerOutcome) (req : Request)
    (m : String) (hp : h req = HandlerOutcome.panicked m) :
    ginRecovery h req =
      (HandlerOutcome.ok { status := 500, body := none },
       [LogEntry.error ("[Recovery] panic recovered: " ++ m)]) ∧
    (∀ g : Request → HandlerOutcome, ∀ r : Request,
      ∃ resp : Response, ∃ logs : List LogEntry,
        ginRecovery g r = (HandlerOutcome.ok resp, logs)) := by
  constructor
  · unfold ginRecovery
    rw [hp]
  · intro g r
    unfold ginRecovery
    cases g r with
    | ok resp => exact ⟨resp, [], rfl⟩
    | panicked m2 => exact ⟨_, _, rfl⟩

/-- C6 witness: a handler that panics with "boom" is answered by a logged
500. -/
theorem panic_caught_500_logged_witness :
    ginRecovery (fun _ => HandlerOutcome.panicked "boom")
      { method := "GET", path := "/x" } =
      (HandlerOutcome.ok { status := 500, body := none },
       [LogEntry.error "[Recovery] panic recovered: boom"]) :=
  (panic_caught_500_logged (fun _ => HandlerOutcome.panicked "boom")
    { method := "GET", path := "/x" } "boom" rfl).1

/-- C7: exactly SIGINT and SIGTERM wake the shutdown wait (they are the
signals registered with signal.Notify), and a drain that completes without
error exits the process with status 0, logging only the shutdown notice;
the serving goroutine does not call Fatal on http.ErrServerClosed. -/
theorem signals_trigger_drain_and_clean_exit :
    (∀ s : OsSignal, triggersShutdown s = true ↔
      (s = OsSignal.sigint ∨ s = OsSignal.sigterm)) ∧
    (mainShutdown ShutdownOutcome.drained).1 = 0 ∧
    (mainShutdown ShutdownOutcome.drained).2 =
      [LogEntry.info "shutting down server"] ∧
    serveGoroutineFatal (some "http: Server closed") = false := by
  refine ⟨?_, rfl, rfl, rfl⟩
  intro s
  cases s <;> decide

/-- C8: a godotenv failure only adds a warning log entry; the parse and
validation outcome of LoadConfig is identical to the outcome with no
failure, so this failure alone never produces an error. -/
theorem dotenv_failure_nonfatal (e : EnvMap) (m : String) :
    (LoadConfig (some m) e).2 = (LoadConfig none e).2 ∧
    (LoadConfig (some m) e).1 =
      [LogEntry.warn ("failed to load environment variables: " ++ m)] :=
  ⟨rfl, rfl⟩

/-- C9: for every Config accepted by validation, zerolog.ParseLevel
succeeds on the LogLevel string (the InfoLevel fallback branch of the
LogLevel method is unreachable) and the method returns exactly the level
named by the string. -/
theorem logLevel_fallback_unreachable (c : Config)
    (h : validateConfig c = Except.ok ()) :
    zerologParseLevel c.Server.LogLevel = Except.ok c.LogLevel ∧
    (c.Server.LogLevel = "debug" → c.LogLevel = 0) ∧
    (c.Server.LogLevel = "info" → c.LogLevel = 1) ∧
    (c.Server.LogLevel = "warn" → c.LogLevel = 2) ∧
    (c.Server.LogLevel = "error" → c.LogLevel = 3) := by
  obtain ⟨⟨A, P, L, V⟩⟩ := c
  have hmem := ((validateConfig_ok_iff _).mp h).2.2.1
  simp only [logLevelEnum, List.mem_cons, List.not_mem_nil, or_false] at hmem
  rcases hmem with rfl | rfl | rfl | rfl <;>
    refine ⟨rfl, ?_, ?_, ?_, ?_⟩ <;>
    intro hx <;>
    first
      | rfl
      | simp at hx

/-- C9 witness: a validated config with LogLevel "warn" maps to level 2. -/
theorem logLevel_fallback_unreachable_witness :
    Config.LogLevel
      { Server :=
        { Address := "", Port := 8080, LogLevel := "warn", Env := "prod" } } = 2 :=
  (logLevel_fallback_unreachable
    { Server :=
      { Address := "", Port := 8080, LogLevel := "warn", Env := "prod" } }
    (by rfl)).2.2.2.1 rfl

/-- C10: IsProd returns true iff the environment tag is exactly "prod";
for local, dev and staging it returns false, and gin release mode is
selected in main exactly for prod. -/
theorem isProd_iff_env_prod (c : Config) :
    (c.IsProd = true ↔ c.Server.Env = "prod") ∧
    ((c.Server.Env = "local" ∨ c.Server.Env = "dev" ∨ c.Server.Env = "staging") →
      c.IsProd = false) ∧
    (ginModeFor c = "release" ↔ c.Server.Env = "prod") := by
  obtain ⟨⟨A, P, L, V⟩⟩ := c
  refine ⟨by simp [Config.IsProd], ?_, ?_⟩
  · rintro (rfl | rfl | rfl) <;> rfl
  · by_cases hb : V = "prod"
    · subst hb
      simp [ginModeFor, Config.IsProd]
    · simp [ginModeFor, Config.IsProd, hb]

/-- C10 witness: a staging config is not prod. -/
theorem isProd_iff_env_prod_witness :
    Config.IsProd
      { Server :=
        { Address := "", Port := 1, LogLevel := "info", Env := "staging" } } = false :=
  (isProd_iff_env_prod
    { Server :=
      { Address := "", Port := 1, LogLevel := "info", Env := "staging" } }).2.1
    (Or.inr (Or.inr rfl))
